import Mathlib

/-
Verification of the Nutmeg CHPP sync core: a shallow embedding of the
error type (src/chpp/error.rs), the retry policy (src/chpp/retry.rs),
the player model and the two merge implementations (src/chpp/model.rs,
src/service/sync.rs), the OAuth verification-code exchange
(src/chpp/oauth.rs) and the sync orchestration pipeline
(src/service/sync.rs).

Network calls, the database and the secret store are external
collaborators; their per-call outcomes are passed in explicitly as
environment values (Except results), and the pipeline is modelled as a
pure state-passing function over an explicit database state.
-/

namespace Nutmeg

/-- Error enumeration from src/chpp/error.rs.  ChppApi carries
(code, message, error_guid, request). -/
inductive Error where
  | Network : String → Error
  | Parse : String → Error
  | Xml : String → Error
  | Auth : String → Error
  | ChppApi : Nat → String → Option String → Option String → Error
  | Io : String → Error
  | Db : String → Error
deriving DecidableEq, Repr

/-- RetryConfig from src/chpp/retry.rs. -/
structure RetryConfig where
  max_retries : Nat
  initial_backoff_ms : Nat
  max_backoff_ms : Nat
deriving DecidableEq, Repr

/-- Default retry configuration (impl Default for RetryConfig). -/
def RetryConfig.default : RetryConfig :=
  { max_retries := 3, initial_backoff_ms := 1000, max_backoff_ms := 32000 }

/-- Retry-eligibility classification, should_retry in src/chpp/retry.rs:
Network errors and ChppApi codes 503 and 429 are retryable, nothing else. -/
def should_retry : Error → Bool
  | Error.Network _ => true
  | Error.ChppApi code _ _ _ => code = 503 || code = 429
  | _ => false

/-- Observable outcome of one run of retry_with_backoff: the final result,
the list of credentials passed to the operation (one entry per invocation,
each obtained from get_credentials immediately before that invocation),
and the list of backoff sleeps performed (in ms). -/
structure RetryOutcome (Cred T : Type) where
  result : Except Error T
  creds_used : List Cred
  sleeps_ms : List Nat

/-- Loop body of retry_with_backoff (the for-loop over attempt in
0..=max_retries in src/chpp/retry.rs).  The first argument is the number
of retries still available (max_retries - attempt); the operation is
indexed by the attempt number so that distinct attempts may behave
differently,, and receives the credentials fetched for that attempt. -/
def retry_go {Cred T : Type} (get_credentials : Nat → Cred)
    (operation : Nat → Cred → Except Error T) (cfg : RetryConfig) :
    Nat → Nat → Nat → RetryOutcome Cred T
  | remaining, attempt, backoff_ms =>
    let cred := get_credentials attempt
    match operation attempt cred, remaining with
    | Except.ok result, _ => ⟨Except.ok result, [cred], []⟩
    | Except.error e, 0 => ⟨Except.error e, [cred], []⟩
    | Except.error e, r + 1 =>
      if should_retry e then
        let rest := retry_go get_credentials operation cfg r (attempt + 1)
          (min (backoff_ms * 2) cfg.max_backoff_ms)
        ⟨rest.result, cred :: rest.creds_used, backoff_ms :: rest.sleeps_ms⟩
      else
        ⟨Except.error e, [cred], []⟩

/-- retry_with_backoff from src/chpp/retry.rs: attempts 0..=max_retries,
fetching fresh credentials before every attempt, sleeping the current
backoff then doubling it (capped at max_backoff_ms) after each retryable
failure, returning immediately on success or on a non-retryable error,
and returning the last error when retries are exhausted. -/
def retry_with_backoff {Cred T : Type} (get_credentials : Nat → Cred)
    (operation : Nat → Cred → Except Error T) (cfg : RetryConfig) :
    RetryOutcome Cred T :=
  retry_go get_credentials operation cfg cfg.max_retries 0 cfg.initial_backoff_ms

/-- retry_with_default_config from src/chpp/retry.rs. -/
def retry_with_default_config {Cred T : Type} (get_credentials : Nat → Cred)
    (operation : Nat → Cred → Except Error T) : RetryOutcome Cred T :=
  retry_with_backoff get_credentials operation RetryConfig.default

/-- MotherClub from src/chpp/model.rs. -/
structure MotherClub where
  TeamID : Nat
  TeamName : String
deriving DecidableEq, Repr

/-- PlayerSkills from src/chpp/model.rs. -/
structure PlayerSkills where
  StaminaSkill : Nat
  KeeperSkill : Nat
  PlaymakerSkill : Nat
  ScorerSkill : Nat
  PassingSkill : Nat
  WingerSkill : Nat
  DefenderSkill : Nat
  SetPiecesSkill : Nat
deriving DecidableEq, Repr

/-- LastMatch from src/chpp/model.rs.  The two f64 rating fields are
modelled as rationals; the merge treats the whole record opaquely. -/
structure LastMatch where
  Date : String
  MatchId : Nat
  PositionCode : Nat
  PlayedMinutes : Nat
  Rating : Option ℚ
  RatingEndOfMatch : Option ℚ
deriving DecidableEq, Repr

/-- Player from src/chpp/model.rs, all fields in source order.
AvatarBlob (a byte vector) is modelled as a list of bytes. -/
structure Player where
  PlayerID : Nat
  FirstName : String
  LastName : String
  NickName : Option String
  PlayerNumber : Option Nat
  Age : Nat
  AgeDays : Option Nat
  TSI : Nat
  PlayerForm : Nat
  Statement : Option String
  Experience : Nat
  Loyalty : Nat
  ReferencePlayerID : Option Nat
  MotherClubBonus : Bool
  Leadership : Nat
  Salary : Nat
  IsAbroad : Bool
  Agreeability : Nat
  Aggressiveness : Nat
  Honesty : Nat
  LeagueGoals : Option Nat
  CupGoals : Option Nat
  FriendliesGoals : Option Nat
  CareerGoals : Option Nat
  CareerHattricks : Option Nat
  CareerAssists : Option Nat
  Speciality : Option Nat
  TransferListed : Bool
  NationalTeamID : Option Nat
  CountryID : Option Nat
  Caps : Option Nat
  CapsU20 : Option Nat
  Cards : Option Nat
  InjuryLevel : Option Int
  Sticker : Option String
  AvatarBlob : Option (List Nat)
  Flag : Option String
  PlayerSkills : Option Nutmeg.PlayerSkills
  ArrivalDate : Option String
  PlayerCategoryId : Option Nat
  MotherClub : Option Nutmeg.MotherClub
  NativeCountryID : Option Nat
  NativeLeagueID : Option Nat
  NativeLeagueName : Option String
  MatchesCurrentTeam : Option Nat
  GoalsCurrentTeam : Option Nat
  AssistsCurrentTeam : Option Nat
  LastMatch : Option Nutmeg.LastMatch
  GenderID : Option Nat
deriving DecidableEq, Repr

/-- One backfill step of the merge: the Rust statement
if d.X.is_none() && basic.X.is_some() then d.X = basic.X, written as the
value the field holds afterwards. -/
def backfill {α : Type} (d b : Option α) : Option α :=
  if d.isNone && b.isSome then b else d

/-- Player::merge_player_data from src/chpp/model.rs (self is the basic
view, other the optional detailed view).  The source performs one
mutating if-statement per field; each statement updates a distinct field
except CountryID, which is first backfilled from self and then, if still
absent, replaced by the native-country id read from the detailed record
(its NativeCountryID backfill from self happens only later, so the
fallback sees the original o.NativeCountryID).  The sequence is therefore
written as one simultaneous record update, with the intermediate
CountryID value named explicitly. -/
def Player.merge_player_data (self : Player) (other : Option Player) : Player :=
  match other with
  | some o =>
    let countryBackfilled := backfill o.CountryID self.CountryID
    { o with
      PlayerNumber := backfill o.PlayerNumber self.PlayerNumber
      AgeDays := backfill o.AgeDays self.AgeDays
      Statement := backfill o.Statement self.Statement
      ReferencePlayerID := backfill o.ReferencePlayerID self.ReferencePlayerID
      LeagueGoals := backfill o.LeagueGoals self.LeagueGoals
      CupGoals := backfill o.CupGoals self.CupGoals
      FriendliesGoals := backfill o.FriendliesGoals self.FriendliesGoals
      CareerGoals := backfill o.CareerGoals self.CareerGoals
      CareerHattricks := backfill o.CareerHattricks self.CareerHattricks
      Speciality := backfill o.Speciality self.Speciality
      NationalTeamID := backfill o.NationalTeamID self.NationalTeamID
      CountryID :=
        if countryBackfilled.isNone && o.NativeCountryID.isSome then o.NativeCountryID
        else countryBackfilled
      Caps := backfill o.Caps self.Caps
      CapsU20 := backfill o.CapsU20 self.CapsU20
      Cards := backfill o.Cards self.Cards
      InjuryLevel := backfill o.InjuryLevel self.InjuryLevel
      Sticker := backfill o.Sticker self.Sticker
      LastMatch := backfill o.LastMatch self.LastMatch
      ArrivalDate := backfill o.ArrivalDate self.ArrivalDate
      PlayerCategoryId := backfill o.PlayerCategoryId self.PlayerCategoryId
      MotherClub := backfill o.MotherClub self.MotherClub
      NativeCountryID := backfill o.NativeCountryID self.NativeCountryID
      NativeLeagueID := backfill o.NativeLeagueID self.NativeLeagueID
      NativeLeagueName := backfill o.NativeLeagueName self.NativeLeagueName
      MatchesCurrentTeam := backfill o.MatchesCurrentTeam self.MatchesCurrentTeam
      GoalsCurrentTeam := backfill o.GoalsCurrentTeam self.GoalsCurrentTeam
      AssistsCurrentTeam := backfill o.AssistsCurrentTeam self.AssistsCurrentTeam
      CareerAssists := backfill o.CareerAssists self.CareerAssists
      GenderID := backfill o.GenderID self.GenderID }
  | none => self

namespace Sync

/-- Free function merge_player_data from src/service/sync.rs: identical
to Player::merge_player_data except that it has no GenderID backfill
step.  The sequence of per-field mutating if-statements is written as
one simultaneous record update exactly as for Player.merge_player_data:
only CountryID is assigned twice, and its native-country fallback reads
the original d.NativeCountryID (backfilled only later in the source). -/
def merge_player_data (basic : Player) (detailed : Option Player) : Player :=
  match detailed with
  | some d =>
    let countryBackfilled := backfill d.CountryID basic.CountryID
    { d with
      PlayerNumber := backfill d.PlayerNumber basic.PlayerNumber
      AgeDays := backfill d.AgeDays basic.AgeDays
      Statement := backfill d.Statement basic.Statement
      ReferencePlayerID := backfill d.ReferencePlayerID basic.ReferencePlayerID
      LeagueGoals := backfill d.LeagueGoals basic.LeagueGoals
      CupGoals := backfill d.CupGoals basic.CupGoals
      FriendliesGoals := backfill d.FriendliesGoals basic.FriendliesGoals
      CareerGoals := backfill d.CareerGoals basic.CareerGoals
      CareerHattricks := backfill d.CareerHattricks basic.CareerHattricks
      Speciality := backfill d.Speciality basic.Speciality
      NationalTeamID := backfill d.NationalTeamID basic.NationalTeamID
      CountryID :=
        if countryBackfilled.isNone && d.NativeCountryID.isSome then d.NativeCountryID
        else countryBackfilled
      Caps := backfill d.Caps basic.Caps
      CapsU20 := backfill d.CapsU20 basic.CapsU20
      Cards := backfill d.Cards basic.Cards
      InjuryLevel := backfill d.InjuryLevel basic.InjuryLevel
      Sticker := backfill d.Sticker basic.Sticker
      LastMatch := backfill d.LastMatch basic.LastMatch
      ArrivalDate := backfill d.ArrivalDate basic.ArrivalDate
      PlayerCategoryId := backfill d.PlayerCategoryId basic.PlayerCategoryId
      MotherClub := backfill d.MotherClub basic.MotherClub
      NativeCountryID := backfill d.NativeCountryID basic.NativeCountryID
      NativeLeagueID := backfill d.NativeLeagueID basic.NativeLeagueID
      NativeLeagueName := backfill d.NativeLeagueName basic.NativeLeagueName
      MatchesCurrentTeam := backfill d.MatchesCurrentTeam basic.MatchesCurrentTeam
      GoalsCurrentTeam := backfill d.GoalsCurrentTeam basic.GoalsCurrentTeam
      AssistsCurrentTeam := backfill d.AssistsCurrentTeam basic.AssistsCurrentTeam
      CareerAssists := backfill d.CareerAssists basic.CareerAssists }
  | none => basic

end Sync

/-- Team from src/chpp/model.rs, restricted to the fields the sync
pipeline reads: TeamID (parsed to obtain the primary team id), TeamName
(logged) and PlayerList (the roster in the players response).  The
remaining XML-schema fields are never consulted by the orchestrator. -/
structure Team where
  TeamID : String
  TeamName : String
  PlayerList : Option (List Nutmeg.Player)
deriving DecidableEq, Repr

/-- User from src/chpp/model.rs, restricted to the fields the sync
pipeline reads (identification and the two logged names). -/
structure User where
  UserID : Nat
  Name : String
  Loginname : String
deriving DecidableEq, Repr

/-- Teams wrapper from src/chpp/model.rs. -/
structure Teams where
  Teams : List Nutmeg.Team
deriving DecidableEq, Repr

/-- HattrickData (the teamdetails response) from src/chpp/model.rs. -/
structure HattrickData where
  User : Nutmeg.User
  Teams : Nutmeg.Teams
deriving DecidableEq, Repr

/-- PlayersData (the players response) from src/chpp/model.rs. -/
structure PlayersData where
  Team : Nutmeg.Team
deriving DecidableEq, Repr

/-- Digit accumulator for parse_u32. -/
def parse_digits : List Char → Nat → Option Nat
  | [], acc => some acc
  | c :: cs, acc =>
    if '0' ≤ c ∧ c ≤ '9' then parse_digits cs (acc * 10 + (c.toNat - 48)) else none

/-- Model of str::parse::<u32> as used on TeamID: an all-digit,
non-empty string within the u32 range parses to its value, anything
else fails. -/
def parse_u32 (s : String) : Option Nat :=
  match s.data with
  | [] => none
  | l =>
    match parse_digits l 0 with
    | some n => if n < 4294967296 then some n else none
    | none => none

/-- Check whether the character list s starts with the pattern list. -/
def listStartsWith : List Char → List Char → Bool
  | [], _ => true
  | _ :: _, [] => false
  | p :: ps, c :: cs => p == c && listStartsWith ps cs

/-- Check whether the pattern occurs as a contiguous sublist of s. -/
def listContainsSub (pat : List Char) : List Char → Bool
  | [] => listStartsWith pat []
  | c :: cs => listStartsWith pat (c :: cs) || listContainsSub pat cs

/-- Substring test, modelling the str::contains call on the error
message in perform_sync_with_stored_secrets. -/
def strContains (s pat : String) : Bool :=
  listContainsSub pat.data s.data

namespace Sync

/-- Rows of the downloads table that the pipeline touches, plus the rows
written by save_team and save_players.  Downloads are (id, status) pairs;
status is the literal string stored by the source ("in_progress" or
"completed").  create_download_record assigns ids from next_download_id
(the source inserts a row and reads back the largest id). -/
structure DbState where
  next_download_id : Nat
  downloads : List (Nat × String)
  teams : List (Nat × Nutmeg.Team)
  players : List (Nat × Nat × List Nutmeg.Player)
deriving DecidableEq, Repr

/-- Outcomes of the external collaborators for one sync run: the secret
store (get_secret returns Except error (Option value)), each CHPP fetch,
each blocking database write, and the per-player detail fetch already
wrapped in retry_with_default_config (an error means retries were
exhausted or a fatal error occurred for that player). -/
structure SyncEnv where
  access_token : Except String (Option String)
  access_secret : Except String (Option String)
  create_record : Except String Unit
  team_details_resp : Except Error Nutmeg.HattrickData
  save_team_result : Except Error Unit
  world_details_resp : Except Error Unit
  save_world_result : Except Error Unit
  players_resp : Except Error Nutmeg.PlayersData
  player_details_resp : Nat → Except Error Nutmeg.Player
  save_players_result : Except Error Unit
  complete_update : Except String Unit

/-- SyncService::create_download_record: insert an in_progress row with
a fresh id and return the id; database failures become Error.Db. -/
def create_download_record (env : SyncEnv) (s : DbState) :
    Except Error (Nat × DbState) :=
  match env.create_record with
  | Except.error e => Except.error (Error.Db ("Failed to create download record: " ++ e))
  | Except.ok _ =>
    let id := s.next_download_id
    Except.ok (id, { s with
      next_download_id := id + 1
      downloads := (id, "in_progress") :: s.downloads })

/-- Status update performed by complete_download_record: the diesel
update sets status to completed on every row whose id matches. -/
def mark_completed (download_id : Nat) (rows : List (Nat × String)) :
    List (Nat × String) :=
  rows.map (fun p => if p.1 = download_id then (p.1, "completed") else p)

/-- SyncService::complete_download_record: set the status of the row
with the given id to completed; update failures become Error.Io. -/
def complete_download_record (env : SyncEnv) (download_id : Nat) (s : DbState) :
    Except Error DbState :=
  match env.complete_update with
  | Except.error e => Except.error (Error.Io ("Failed to update download status: " ++ e))
  | Except.ok _ =>
    Except.ok { s with downloads := mark_completed download_id s.downloads }

/-- SyncService::fetch_and_save_user_data: fetch teamdetails, derive the
primary team id from the first team (0 when absent or unparsable), save
user and teams, and return the team id. -/
def fetch_and_save_user_data (env : SyncEnv) (download_id : Nat) (s : DbState) :
    Except Error (Nat × DbState) :=
  match env.team_details_resp with
  | Except.error e => Except.error e
  | Except.ok hattrick_data =>
    let team_id := ((hattrick_data.Teams.Teams.head?).bind
      (fun t => parse_u32 t.TeamID)).getD 0
    match env.save_team_result with
    | Except.error e => Except.error e
    | Except.ok _ =>
      Except.ok (team_id, { s with
        teams := s.teams ++ hattrick_data.Teams.Teams.map (fun t => (download_id, t)) })

/-- SyncService::fetch_and_save_world_details: fetch worlddetails and
persist it.  The world rows themselves are opaque to every claim, so the
state is returned unchanged on success. -/
def fetch_and_save_world_details (env : SyncEnv) (_download_id : Nat) (s : DbState) :
    Except Error DbState :=
  match env.world_details_resp with
  | Except.error e => Except.error e
  | Except.ok _ =>
    match env.save_world_result with
    | Except.error e => Except.error e
    | Except.ok _ => Except.ok s

/-- Per-player step of stage 5, the match on the retry result inside
fetch_and_save_players: on success merge the detailed record, on failure
(retries exhausted or fatal error) merge with None, keeping the basic
view, and continue. -/
def merge_outcome (detail : Except Error Nutmeg.Player) (basic_player : Nutmeg.Player) :
    Nutmeg.Player :=
  match detail with
  | Except.ok detailed_player => merge_player_data basic_player (some detailed_player)
  | Except.error _ => merge_player_data basic_player none

/-- SyncService::fetch_and_save_players: fetch the roster (a missing
player list is a fatal parse error), fetch each detail record through
the retry policy, merge (with the basic view alone on failure), and save
all merged players. -/
def fetch_and_save_players (env : SyncEnv) (team_id download_id : Nat) (s : DbState) :
    Except Error DbState :=
  match env.players_resp with
  | Except.error e => Except.error e
  | Except.ok players_resp =>
    match players_resp.Team.PlayerList with
    | none => Except.error (Error.Parse "No player list in response")
    | some player_list =>
      let merged_players := player_list.map (fun basic_player =>
        merge_outcome (env.player_details_resp basic_player.PlayerID) basic_player)
      match env.save_players_result with
      | Except.error e => Except.error e
      | Except.ok _ =>
        Except.ok { s with players := s.players ++ [(download_id, team_id, merged_players)] }

/-- SyncService::do_sync: credentials check, then the linear pipeline
create record, team/user, world details, players, finalize.  Progress
callbacks are side effects with no bearing on the results and are not
modelled.  The database state at the point of failure is returned
alongside the error (partial writes are left in place). -/
def do_sync (env : SyncEnv) (s0 : DbState) : Except Error Unit × DbState :=
  match env.access_token with
  | Except.error e => (Except.error (Error.Io e), s0)
  | Except.ok none => (Except.error (Error.Io "Missing credentials (token)"), s0)
  | Except.ok (some _) =>
    match env.access_secret with
    | Except.error e => (Except.error (Error.Io e), s0)
    | Except.ok none => (Except.error (Error.Io "Missing credentials (secret)"), s0)
    | Except.ok (some _) =>
      match create_download_record env s0 with
      | Except.error e => (Except.error e, s0)
      | Except.ok (download_id, s1) =>
        match fetch_and_save_user_data env download_id s1 with
        | Except.error e => (Except.error e, s1)
        | Except.ok (team_id, s2) =>
          match fetch_and_save_world_details env download_id s2 with
          | Except.error e => (Except.error e, s2)
          | Except.ok s3 =>
            match fetch_and_save_players env team_id download_id s3 with
            | Except.error e => (Except.error e, s3)
            | Except.ok s4 =>
              match complete_download_record env download_id s4 with
              | Except.error e => (Except.error e, s4)
              | Except.ok s5 => (Except.ok (), s5)

/-- SyncService::perform_sync_with_stored_secrets: run do_sync only when
both get_secret calls succeed, mapping success to Ok true, an Io error
whose message contains "Missing credentials" to Ok false, and any other
error through unchanged; when either get_secret call fails, return
Ok false without syncing. -/
def perform_sync_with_stored_secrets (env : SyncEnv) (s0 : DbState) :
    Except Error Bool × DbState :=
  let token_exists := match env.access_token with
    | Except.ok _ => true
    | Except.error _ => false
  let secret_exists := match env.access_secret with
    | Except.ok _ => true
    | Except.error _ => false
  if token_exists && secret_exists then
    match do_sync env s0 with
    | (Except.ok _, s) => (Except.ok true, s)
    | (Except.error (Error.Io m), s) =>
      if strContains m "Missing credentials" then (Except.ok false, s)
      else (Except.error (Error.Io m), s)
    | (Except.error e, s) => (Except.error e, s)
  else
    (Except.ok false, s0)

end Sync

/-- OauthSettings from src/chpp/oauth.rs (the RefCell wrappers are
interior mutability only; the exchange reads a snapshot of each cell). -/
structure OauthSettings where
  request_token : String
  oauth_secret_token : String
  nonce : String
  client_id : String
  client_secret : String
deriving DecidableEq, Repr

/-- Outcomes of the external collaborators of
exchange_verification_code: the HTTP POST to the access-token endpoint
(error string on transport failure, response text on success) and the
oauth_1a receive_token parser (token plus the optional token secret left
in the signing key, or a parse failure). -/
structure OauthExchangeEnv where
  send_response : Except String String
  receive_token : String → Except String (String × Option String)

/-- exchange_verification_code from src/chpp/oauth.rs: reject empty
consumer credentials with an Auth error, then sign and POST the verifier
to the (constant, always parsable) access-token URL, parse the response
via receive_token (failures become Auth errors), and require a token
secret; the stored request token is read into the signing material but
never validated. -/
def exchange_verification_code (verification_code : String)
    (settings : OauthSettings) (env : OauthExchangeEnv) :
    Except Error (String × String) :=
  let _ := verification_code
  let _ := settings.request_token
  let _ := settings.oauth_secret_token
  if settings.client_id.isEmpty || settings.client_secret.isEmpty then
    Except.error (Error.Auth "Consumer key or secret missing in settings")
  else
    match env.send_response with
    | Except.error e => Except.error (Error.Network ("Failed to request access token: " ++ e))
    | Except.ok resp =>
      match env.receive_token resp with
      | Except.error e => Except.error (Error.Auth ("Failed to receive token: " ++ e))
      | Except.ok (_, none) => Except.error (Error.Auth "No token secret received")
      | Except.ok (access_token, some access_secret) =>
        Except.ok (access_token, access_secret)

/-!  Helper lemmas shared by the claim theorems. -/

/-- Value of a backfill step when the base field is absent and the
filling field is present. -/
theorem backfill_none_some {α : Type} {d b : Option α} {x : α}
    (h1 : d = none) (h2 : b = some x) : backfill d b = some x := by
  subst h1
  subst h2
  rfl

/-- Value of a backfill step when the base field is present. -/
theorem backfill_some {α : Type} {b : Option α} (x : α) :
    backfill (some x) b = some x := rfl

/-- Stage-5 per-player merge equals a merge with the Option view of the
retry outcome. -/
theorem merge_outcome_toOption (detail : Except Error Player) (b : Player) :
    Sync.merge_outcome detail b = Sync.merge_player_data b detail.toOption := by
  cases detail <;> rfl

/-- Status rows untouched by mark_completed: rows whose id differs. -/
theorem mark_completed_of_fresh (did : Nat) (rows : List (Nat × String))
    (h : ∀ q ∈ rows, q.1 ≠ did) : Sync.mark_completed did rows = rows := by
  induction rows with
  | nil => rfl
  | cons a t ih =>
    have ha : a.1 ≠ did := h a (List.mem_cons_self a t)
    have ht := ih (fun q hq => h q (List.mem_cons_of_mem a hq))
    simp only [Sync.mark_completed, List.map_cons] at ht ⊢
    rw [if_neg ha]
    exact congrArg _ ht

/-- Effect of mark_completed on a list headed by the matching row, when
no other row shares the id. -/
theorem mark_completed_cons_self (did : Nat) (st : String) (rows : List (Nat × String))
    (h : ∀ q ∈ rows, q.1 ≠ did) :
    Sync.mark_completed did ((did, st) :: rows) = (did, "completed") :: rows := by
  show (if (did, st).1 = did then ((did, st).1, "completed") else (did, st)) ::
      Sync.mark_completed did rows = (did, "completed") :: rows
  rw [if_pos rfl, mark_completed_of_fresh did rows h]

/-- Behaviour of the retry loop when every attempt fails with a Network
error: it walks the whole remaining budget and reports the last error,
invoking the operation remaining + 1 times. -/
theorem retry_go_all_network_errors {Cred T : Type} (get_credentials : Nat → Cred)
    (operation : Nat → Cred → Except Error T) (cfg : RetryConfig) (msg : Nat → String)
    (hop : ∀ i c, operation i c = Except.error (Error.Network (msg i))) :
    ∀ remaining attempt backoff_ms,
      (retry_go get_credentials operation cfg remaining attempt backoff_ms).result
        = Except.error (Error.Network (msg (attempt + remaining))) ∧
      (retry_go get_credentials operation cfg remaining attempt backoff_ms).creds_used.length
        = remaining + 1 := by
  intro remaining
  induction remaining with
  | zero =>
    intro attempt backoff_ms
    simp [retry_go, hop]
  | succ r ih =>
    intro attempt backoff_ms
    have harr : attempt + 1 + r = attempt + (r + 1) := by omega
    have hrest := ih (attempt + 1) (min (backoff_ms * 2) cfg.max_backoff_ms)
    rw [harr] at hrest
    simp [retry_go, hop, should_retry, hrest.1, hrest.2]

/-- Behaviour of the retry loop when the first k attempts (counted from
a given start) fail with Network errors and the next attempt succeeds:
it returns the success and passes exactly the k + 1 freshly fetched
credentials, one per attempt, in order. -/
theorem retry_go_transient_then_ok {Cred T : Type} (get_credentials : Nat → Cred)
    (operation : Nat → Cred → Except Error T) (cfg : RetryConfig) (msg : Nat → String)
    (v : T) :
    ∀ k attempt backoff_ms remaining, k ≤ remaining →
      (∀ i, i < k → ∀ c, operation (attempt + i) c
        = Except.error (Error.Network (msg (attempt + i)))) →
      (∀ c, operation (attempt + k) c = Except.ok v) →
      (retry_go get_credentials operation cfg remaining attempt backoff_ms).result
        = Except.ok v ∧
      (retry_go get_credentials operation cfg remaining attempt backoff_ms).creds_used
        = (List.range' attempt (k + 1)).map get_credentials := by
  intro k
  induction k with
  | zero =>
    intro attempt backoff_ms remaining _ _ hsucc
    have h0 : operation attempt (get_credentials attempt) = Except.ok v := by
      have := hsucc (get_credentials attempt)
      simpa using this
    cases remaining <;> simp [retry_go, h0, List.range']
  | succ kk ih =>
    intro attempt backoff_ms remaining hk hfail hsucc
    cases remaining with
    | zero => omega
    | succ r =>
      have h0 : operation attempt (get_credentials attempt)
          = Except.error (Error.Network (msg attempt)) := by
        have := hfail 0 (by omega) (get_credentials attempt)
        simpa using this
      have hfail' : ∀ i, i < kk → ∀ c, operation (attempt + 1 + i) c
          = Except.error (Error.Network (msg (attempt + 1 + i))) := by
        intro i hi c
        have harr : attempt + 1 + i = attempt + (i + 1) := by omega
        rw [harr]
        exact hfail (i + 1) (by omega) c
      have hsucc' : ∀ c, operation (attempt + 1 + kk) c = Except.ok v := by
        intro c
        have harr : attempt + 1 + kk = attempt + (kk + 1) := by omega
        rw [harr]
        exact hsucc c
      have hrest := ih (attempt + 1) (min (backoff_ms * 2) cfg.max_backoff_ms) r
        (by omega) hfail' hsucc'
      simp [retry_go, h0, should_retry, hrest.1, hrest.2, List.range'_succ]

/-- C4: for every retry configuration and every operation whose first
attempt fails with a non-retryable error (should_retry classifies it
false, i.e. anything other than Network or ChppApi 503/429),
retry_with_backoff returns that error after exactly one invocation of
the operation and performs no backoff sleep. -/
theorem retry_fatal_error_single_attempt {Cred T : Type} (get_credentials : Nat → Cred)
    (operation : Nat → Cred → Except Error T) (cfg : RetryConfig) (e : Error)
    (hop : operation 0 (get_credentials 0) = Except.error e)
    (hfatal : should_retry e = false) :
    (retry_with_backoff get_credentials operation cfg).result = Except.error e ∧
    (retry_with_backoff get_credentials operation cfg).creds_used.length = 1 ∧
    (retry_with_backoff get_credentials operation cfg).sleeps_ms = [] := by
  unfold retry_with_backoff
  cases hm : cfg.max_retries with
  | zero => simp [retry_go, hop]
  | succ r => simp [retry_go, hop, hfatal]

/-- C4 witness: an operation that always fails with an Auth error under
the repository's test configuration is returned after one attempt. -/
theorem retry_fatal_error_single_attempt_witness :
    (retry_with_backoff (fun i => i)
      (fun _ _ => (Except.error (Error.Auth "Unauthorized") : Except Error Nat))
      ⟨3, 10, 100⟩).result = Except.error (Error.Auth "Unauthorized") ∧
    (retry_with_backoff (fun i => i)
      (fun _ _ => (Except.error (Error.Auth "Unauthorized") : Except Error Nat))
      ⟨3, 10, 100⟩).creds_used.length = 1 ∧
    (retry_with_backoff (fun i => i)
      (fun _ _ => (Except.error (Error.Auth "Unauthorized") : Except Error Nat))
      ⟨3, 10, 100⟩).sleeps_ms = [] :=
  retry_fatal_error_single_attempt (fun i => i)
    (fun _ _ => (Except.error (Error.Auth "Unauthorized") : Except Error Nat))
    ⟨3, 10, 100⟩ (Error.Auth "Unauthorized") rfl rfl

/-- C5: for every operation failing with a Network error on every
attempt, retry_with_backoff invokes the operation exactly
max_retries + 1 times and returns the last error produced (in
particular, with max_retries = 2 this is 3 invocations). -/
theorem retry_network_error_exhausts_budget {Cred T : Type} (get_credentials : Nat → Cred)
    (operation : Nat → Cred → Except Error T) (cfg : RetryConfig) (msg : Nat → String)
    (hop : ∀ i c, operation i c = Except.error (Error.Network (msg i))) :
    (retry_with_backoff get_credentials operation cfg).result
      = Except.error (Error.Network (msg cfg.max_retries)) ∧
    (retry_with_backoff get_credentials operation cfg).creds_used.length
      = cfg.max_retries + 1 := by
  have h := retry_go_all_network_errors get_credentials operation cfg msg hop
    cfg.max_retries 0 cfg.initial_backoff_ms
  simpa [retry_with_backoff] using h

/-- C5 witness: with max_retries = 2 and a persistently failing network
operation, the operation runs 3 times and the final error is returned. -/
theorem retry_network_error_exhausts_budget_witness :
    (retry_with_backoff (fun i => i)
      (fun _ _ => (Except.error (Error.Network "Persistent failure") : Except Error Nat))
      ⟨2, 10, 100⟩).result = Except.error (Error.Network "Persistent failure") ∧
    (retry_with_backoff (fun i => i)
      (fun _ _ => (Except.error (Error.Network "Persistent failure") : Except Error Nat))
      ⟨2, 10, 100⟩).creds_used.length = 3 :=
  retry_network_error_exhausts_budget (fun i => i)
    (fun _ _ => (Except.error (Error.Network "Persistent failure") : Except Error Nat))
    ⟨2, 10, 100⟩ (fun _ => "Persistent failure") (fun _ _ => rfl)

/-- C6: for every k strictly below max_retries and every operation that
fails with a Network error on exactly its first k invocations and then
succeeds, retry_with_backoff returns the success value, the operation is
invoked exactly k + 1 times, and the i-th invocation receives the
credentials fetched freshly from get_credentials for attempt i. -/
theorem retry_transient_then_success {Cred T : Type} (get_credentials : Nat → Cred)
    (operation : Nat → Cred → Except Error T) (cfg : RetryConfig) (msg : Nat → String)
    (v : T) (k : Nat) (hk : k < cfg.max_retries)
    (hfail : ∀ i, i < k → ∀ c, operation i c = Except.error (Error.Network (msg i)))
    (hsucc : ∀ c, operation k c = Except.ok v) :
    (retry_with_backoff get_credentials operation cfg).result = Except.ok v ∧
    (retry_with_backoff get_credentials operation cfg).creds_used
      = (List.range (k + 1)).map get_credentials ∧
    (retry_with_backoff get_credentials operation cfg).creds_used.length = k + 1 := by
  have h := retry_go_transient_then_ok get_credentials operation cfg msg v
    k 0 cfg.initial_backoff_ms cfg.max_retries (Nat.le_of_lt hk)
    (by simpa using hfail) (by simpa using hsucc)
  refine ⟨h.1, ?_, ?_⟩
  · rw [List.range_eq_range']
    exact h.2
  · have h2 : (retry_with_backoff get_credentials operation cfg).creds_used
        = (List.range' 0 (k + 1)).map get_credentials := h.2
    rw [h2]
    simp

/-- C6 witness: two Network failures then success with max_retries = 3
yields the success after exactly 3 invocations, on the credentials
fetched for attempts 0, 1 and 2. -/
theorem retry_transient_then_success_witness :
    (retry_with_backoff (fun i => i)
      (fun i _ => if i < 2 then Except.error (Error.Network "Connection failed")
        else (Except.ok "success" : Except Error String))
      ⟨3, 10, 100⟩).result = Except.ok "success" ∧
    (retry_with_backoff (fun i => i)
      (fun i _ => if i < 2 then Except.error (Error.Network "Connection failed")
        else (Except.ok "success" : Except Error String))
      ⟨3, 10, 100⟩).creds_used = [0, 1, 2] ∧
    (retry_with_backoff (fun i => i)
      (fun i _ => if i < 2 then Except.error (Error.Network "Connection failed")
        else (Except.ok "success" : Except Error String))
      ⟨3, 10, 100⟩).creds_used.length = 3 := by
  have h := retry_transient_then_success (fun i => i)
    (fun i _ => if i < 2 then Except.error (Error.Network "Connection failed")
      else (Except.ok "success" : Except Error String))
    ⟨3, 10, 100⟩ (fun _ => "Connection failed") "success" 2 (by decide)
    (fun i hi _ => by simp [hi]) (fun _ => rfl)
  exact ⟨h.1, h.2.1, h.2.2⟩

/-!  Concrete fixtures for counterexamples and witnesses. -/

/-- Player with every optional field absent and neutral scalar values. -/
def basePlayer : Player where
  PlayerID := 0
  FirstName := "First"
  LastName := "Last"
  NickName := none
  PlayerNumber := none
  Age := 20
  AgeDays := none
  TSI := 1000
  PlayerForm := 5
  Statement := none
  Experience := 3
  Loyalty := 10
  ReferencePlayerID := none
  MotherClubBonus := false
  Leadership := 3
  Salary := 500
  IsAbroad := false
  Agreeability := 3
  Aggressiveness := 3
  Honesty := 3
  LeagueGoals := none
  CupGoals := none
  FriendliesGoals := none
  CareerGoals := none
  CareerHattricks := none
  CareerAssists := none
  Speciality := none
  TransferListed := false
  NationalTeamID := none
  CountryID := none
  Caps := none
  CapsU20 := none
  Cards := none
  InjuryLevel := none
  Sticker := none
  AvatarBlob := none
  Flag := none
  PlayerSkills := none
  ArrivalDate := none
  PlayerCategoryId := none
  MotherClub := none
  NativeCountryID := none
  NativeLeagueID := none
  NativeLeagueName := none
  MatchesCurrentTeam := none
  GoalsCurrentTeam := none
  AssistsCurrentTeam := none
  LastMatch := none
  GenderID := none

/-- Concrete LastMatch value for the merge witnesses. -/
def lastMatchFx : LastMatch where
  Date := "2020-01-01"
  MatchId := 5
  PositionCode := 100
  PlayedMinutes := 90
  Rating := none
  RatingEndOfMatch := none

/-- Concrete MotherClub value for the merge witnesses. -/
def motherClubFx : MotherClub where
  TeamID := 77
  TeamName := "Origin FC"

/-- Basic view with every backfilled optional field populated. -/
def fullBasic : Player := { basePlayer with
  PlayerNumber := some 10
  AgeDays := some 100
  Statement := some "hello"
  ReferencePlayerID := some 999
  LeagueGoals := some 5
  CupGoals := some 2
  FriendliesGoals := some 1
  CareerGoals := some 50
  CareerHattricks := some 2
  Speciality := some 1
  NationalTeamID := some 100
  CountryID := some 10
  Caps := some 5
  CapsU20 := some 11
  Cards := some 1
  InjuryLevel := some (-1)
  Sticker := some "sticker"
  LastMatch := some lastMatchFx
  ArrivalDate := some "2019-07-01"
  PlayerCategoryId := some 3
  MotherClub := some motherClubFx
  NativeCountryID := some 42
  NativeLeagueID := some 7
  NativeLeagueName := some "League"
  MatchesCurrentTeam := some 20
  GoalsCurrentTeam := some 8
  AssistsCurrentTeam := some 4
  CareerAssists := some 12 }

/-- Basic view carrying a nickname (for the C3 counterexample). -/
def nickBasic : Player := { basePlayer with NickName := some "Nicky" }

/-- Basic view carrying only a native country id (for C7). -/
def nativeOnlyBasic : Player := { basePlayer with NativeCountryID := some 42 }

/-- Basic view carrying a gender id (for C10). -/
def genderBasic : Player := { basePlayer with GenderID := some 1 }

/-- C3 counterexample: NickName is an optional field that is null in the
detailed view and non-null in the basic view, yet the merged record does
not take the basic value (the merge has no NickName backfill), so a
field can be null on the merged record without being null in both
sources. -/
theorem merge_nickname_not_backfilled_cex :
    basePlayer.NickName = none ∧ nickBasic.NickName = some "Nicky" ∧
    (Sync.merge_player_data nickBasic (some basePlayer)).NickName ≠ nickBasic.NickName := by
  refine ⟨rfl, rfl, ?_⟩
  decide

/-- C3 amended: for every optional field that the merge backfills (all
optional fields except NickName, AvatarBlob, Flag, PlayerSkills and
GenderID), if the field is null in the detailed view and non-null in the
basic view then the merged record carries the basic value. -/
theorem merge_backfilled_fields_from_basic (basic d : Player) :
    (d.PlayerNumber = none → ∀ x, basic.PlayerNumber = some x →
      (Sync.merge_player_data basic (some d)).PlayerNumber = some x) ∧
    (d.AgeDays = none → ∀ x, basic.AgeDays = some x →
      (Sync.merge_player_data basic (some d)).AgeDays = some x) ∧
    (d.Statement = none → ∀ x, basic.Statement = some x →
      (Sync.merge_player_data basic (some d)).Statement = some x) ∧
    (d.ReferencePlayerID = none → ∀ x, basic.ReferencePlayerID = some x →
      (Sync.merge_player_data basic (some d)).ReferencePlayerID = some x) ∧
    (d.LeagueGoals = none → ∀ x, basic.LeagueGoals = some x →
      (Sync.merge_player_data basic (some d)).LeagueGoals = some x) ∧
    (d.CupGoals = none → ∀ x, basic.CupGoals = some x →
      (Sync.merge_player_data basic (some d)).CupGoals = some x) ∧
    (d.FriendliesGoals = none → ∀ x, basic.FriendliesGoals = some x →
      (Sync.merge_player_data basic (some d)).FriendliesGoals = some x) ∧
    (d.CareerGoals = none → ∀ x, basic.CareerGoals = some x →
      (Sync.merge_player_data basic (some d)).CareerGoals = some x) ∧
    (d.CareerHattricks = none → ∀ x, basic.CareerHattricks = some x →
      (Sync.merge_player_data basic (some d)).CareerHattricks = some x) ∧
    (d.Speciality = none → ∀ x, basic.Speciality = some x →
      (Sync.merge_player_data basic (some d)).Speciality = some x) ∧
    (d.NationalTeamID = none → ∀ x, basic.NationalTeamID = some x →
      (Sync.merge_player_data basic (some d)).NationalTeamID = some x) ∧
    (d.CountryID = none → ∀ x, basic.CountryID = some x →
      (Sync.merge_player_data basic (some d)).CountryID = some x) ∧
    (d.Caps = none → ∀ x, basic.Caps = some x →
      (Sync.merge_player_data basic (some d)).Caps = some x) ∧
    (d.CapsU20 = none → ∀ x, basic.CapsU20 = some x →
      (Sync.merge_player_data basic (some d)).CapsU20 = some x) ∧
    (d.Cards = none → ∀ x, basic.Cards = some x →
      (Sync.merge_player_data basic (some d)).Cards = some x) ∧
    (d.InjuryLevel = none → ∀ x, basic.InjuryLevel = some x →
      (Sync.merge_player_data basic (some d)).InjuryLevel = some x) ∧
    (d.Sticker = none → ∀ x, basic.Sticker = some x →
      (Sync.merge_player_data basic (some d)).Sticker = some x) ∧
    (d.LastMatch = none → ∀ x, basic.LastMatch = some x →
      (Sync.merge_player_data basic (some d)).LastMatch = some x) ∧
    (d.ArrivalDate = none → ∀ x, basic.ArrivalDate = some x →
      (Sync.merge_player_data basic (some d)).ArrivalDate = some x) ∧
    (d.PlayerCategoryId = none → ∀ x, basic.PlayerCategoryId = some x →
      (Sync.merge_player_data basic (some d)).PlayerCategoryId = some x) ∧
    (d.MotherClub = none → ∀ x, basic.MotherClub = some x →
      (Sync.merge_player_data basic (some d)).MotherClub = some x) ∧
    (d.NativeCountryID = none → ∀ x, basic.NativeCountryID = some x →
      (Sync.merge_player_data basic (some d)).NativeCountryID = some x) ∧
    (d.NativeLeagueID = none → ∀ x, basic.NativeLeagueID = some x →
      (Sync.merge_player_data basic (some d)).NativeLeagueID = some x) ∧
    (d.NativeLeagueName = none → ∀ x, basic.NativeLeagueName = some x →
      (Sync.merge_player_data basic (some d)).NativeLeagueName = some x) ∧
    (d.MatchesCurrentTeam = none → ∀ x, basic.MatchesCurrentTeam = some x →
      (Sync.merge_player_data basic (some d)).MatchesCurrentTeam = some x) ∧
    (d.GoalsCurrentTeam = none → ∀ x, basic.GoalsCurrentTeam = some x →
      (Sync.merge_player_data basic (some d)).GoalsCurrentTeam = some x) ∧
    (d.AssistsCurrentTeam = none → ∀ x, basic.AssistsCurrentTeam = some x →
      (Sync.merge_player_data basic (some d)).AssistsCurrentTeam = some x) ∧
    (d.CareerAssists = none → ∀ x, basic.CareerAssists = some x →
      (Sync.merge_player_data basic (some d)).CareerAssists = some x) := by
  refine ⟨?_, ?_, ?_, ?_, ?_, ?_, ?_, ?_, ?_, ?_, ?_, ?_, ?_, ?_, ?_, ?_, ?_, ?_,
    ?_, ?_, ?_, ?_, ?_, ?_, ?_, ?_, ?_, ?_⟩
  all_goals try exact fun h1 x h2 => backfill_none_some h1 h2
  intro h1 x h2
  show (if (backfill d.CountryID basic.CountryID).isNone && d.NativeCountryID.isSome
      then d.NativeCountryID else backfill d.CountryID basic.CountryID) = some x
  rw [backfill_none_some h1 h2]
  simp

/-- C3 amended witness: merging a basic view with every backfilled
optional field populated against a detailed view with all of them
absent copies every basic value into the merged record. -/
theorem merge_backfilled_fields_from_basic_witness :
    (Sync.merge_player_data fullBasic (some basePlayer)).PlayerNumber = some 10 ∧
    (Sync.merge_player_data fullBasic (some basePlayer)).AgeDays = some 100 ∧
    (Sync.merge_player_data fullBasic (some basePlayer)).Statement = some "hello" ∧
    (Sync.merge_player_data fullBasic (some basePlayer)).ReferencePlayerID = some 999 ∧
    (Sync.merge_player_data fullBasic (some basePlayer)).LeagueGoals = some 5 ∧
    (Sync.merge_player_data fullBasic (some basePlayer)).CupGoals = some 2 ∧
    (Sync.merge_player_data fullBasic (some basePlayer)).FriendliesGoals = some 1 ∧
    (Sync.merge_player_data fullBasic (some basePlayer)).CareerGoals = some 50 ∧
    (Sync.merge_player_data fullBasic (some basePlayer)).CareerHattricks = some 2 ∧
    (Sync.merge_player_data fullBasic (some basePlayer)).Speciality = some 1 ∧
    (Sync.merge_player_data fullBasic (some basePlayer)).NationalTeamID = some 100 ∧
    (Sync.merge_player_data fullBasic (some basePlayer)).CountryID = some 10 ∧
    (Sync.merge_player_data fullBasic (some basePlayer)).Caps = some 5 ∧
    (Sync.merge_player_data fullBasic (some basePlayer)).CapsU20 = some 11 ∧
    (Sync.merge_player_data fullBasic (some basePlayer)).Cards = some 1 ∧
    (Sync.merge_player_data fullBasic (some basePlayer)).InjuryLevel = some (-1) ∧
    (Sync.merge_player_data fullBasic (some basePlayer)).Sticker = some "sticker" ∧
    (Sync.merge_player_data fullBasic (some basePlayer)).LastMatch = some lastMatchFx ∧
    (Sync.merge_player_data fullBasic (some basePlayer)).ArrivalDate = some "2019-07-01" ∧
    (Sync.merge_player_data fullBasic (some basePlayer)).PlayerCategoryId = some 3 ∧
    (Sync.merge_player_data fullBasic (some basePlayer)).MotherClub = some motherClubFx ∧
    (Sync.merge_player_data fullBasic (some basePlayer)).NativeCountryID = some 42 ∧
    (Sync.merge_player_data fullBasic (some basePlayer)).NativeLeagueID = some 7 ∧
    (Sync.merge_player_data fullBasic (some basePlayer)).NativeLeagueName = some "League" ∧
    (Sync.merge_player_data fullBasic (some basePlayer)).MatchesCurrentTeam = some 20 ∧
    (Sync.merge_player_data fullBasic (some basePlayer)).GoalsCurrentTeam = some 8 ∧
    (Sync.merge_player_data fullBasic (some basePlayer)).AssistsCurrentTeam = some 4 ∧
    (Sync.merge_player_data fullBasic (some basePlayer)).CareerAssists = some 12 := by
  obtain ⟨a1, a2, a3, a4, a5, a6, a7, a8, a9, a10, a11, a12, a13, a14, a15, a16, a17,
    a18, a19, a20, a21, a22, a23, a24, a25, a26, a27, a28⟩ :=
    merge_backfilled_fields_from_basic fullBasic basePlayer
  exact ⟨a1 rfl 10 rfl, a2 rfl 100 rfl, a3 rfl "hello" rfl, a4 rfl 999 rfl,
    a5 rfl 5 rfl, a6 rfl 2 rfl, a7 rfl 1 rfl, a8 rfl 50 rfl, a9 rfl 2 rfl,
    a10 rfl 1 rfl, a11 rfl 100 rfl, a12 rfl 10 rfl, a13 rfl 5 rfl, a14 rfl 11 rfl,
    a15 rfl 1 rfl, a16 rfl (-1) rfl, a17 rfl "sticker" rfl, a18 rfl lastMatchFx rfl,
    a19 rfl "2019-07-01" rfl, a20 rfl 3 rfl, a21 rfl motherClubFx rfl,
    a22 rfl 42 rfl, a23 rfl 7 rfl, a24 rfl "League" rfl, a25 rfl 20 rfl,
    a26 rfl 8 rfl, a27 rfl 4 rfl, a28 rfl 12 rfl⟩

/-- C7 counterexample: both views lack a country id, so the merged
country id is still absent after backfill; the merged record carries a
native-country id (backfilled from the basic view), yet the merged
country id stays absent, because the fallback reads the native id of the
detailed view, not of the merged record. -/
theorem country_fallback_ignores_backfilled_native_cex :
    nativeOnlyBasic.CountryID = none ∧ basePlayer.CountryID = none ∧
    (Sync.merge_player_data nativeOnlyBasic (some basePlayer)).NativeCountryID = some 42 ∧
    (Sync.merge_player_data nativeOnlyBasic (some basePlayer)).CountryID = none ∧
    (Sync.merge_player_data nativeOnlyBasic (some basePlayer)).CountryID ≠ some 42 := by
  refine ⟨rfl, rfl, rfl, rfl, ?_⟩
  decide

/-- C7 amended: when the country id is absent in both views and the
detailed view carries a native-country id, the merge uses that detailed
native-country id as the merged country id (and it is then also the
merged native-country id). -/
theorem country_fallback_uses_detailed_native (basic d : Player) (n : Nat)
    (h1 : d.CountryID = none) (h2 : basic.CountryID = none)
    (h3 : d.NativeCountryID = some n) :
    (Sync.merge_player_data basic (some d)).CountryID = some n ∧
    (Sync.merge_player_data basic (some d)).NativeCountryID = some n := by
  have hbf : backfill d.CountryID basic.CountryID = none := by
    rw [h1, h2]
    rfl
  constructor
  · show (if (backfill d.CountryID basic.CountryID).isNone && d.NativeCountryID.isSome
        then d.NativeCountryID else backfill d.CountryID basic.CountryID) = some n
    rw [hbf, h3]
    rfl
  · show backfill d.NativeCountryID basic.NativeCountryID = some n
    rw [h3]
    rfl

/-- C7 amended witness: a detailed view whose native-country id is 9 and
a basic view without country data yield 9 as the merged country id. -/
theorem country_fallback_uses_detailed_native_witness :
    (Sync.merge_player_data basePlayer
      (some { basePlayer with NativeCountryID := some 9 })).CountryID = some 9 ∧
    (Sync.merge_player_data basePlayer
      (some { basePlayer with NativeCountryID := some 9 })).NativeCountryID = some 9 :=
  country_fallback_uses_detailed_native basePlayer
    { basePlayer with NativeCountryID := some 9 } 9 rfl rfl rfl

/-- C10 counterexample: a basic view with a gender id and a detailed
view without one are merged differently by the two implementations: the
model method backfills GenderID, the sync free function does not. -/
theorem merge_implementations_differ_cex :
    Sync.merge_player_data genderBasic (some basePlayer)
      ≠ Player.merge_player_data genderBasic (some basePlayer) := by
  decide

/-- C10 amended: the free function merge_player_data in the sync service
and the method Player::merge_player_data agree on every input pair in
which the detailed view is absent, or carries a gender id, or the basic
view carries none (equivalently, on every pair outside the GenderID
backfill case, the only behavioural difference between the two). -/
theorem merge_implementations_agree_modulo_gender (basic : Player) (det : Option Player)
    (h : ∀ d, det = some d → (d.GenderID.isSome = true ∨ basic.GenderID = none)) :
    Sync.merge_player_data basic det = Player.merge_player_data basic det := by
  cases det with
  | none => rfl
  | some d =>
    have hgen : backfill d.GenderID basic.GenderID = d.GenderID := by
      rcases h d rfl with hg | hg
      · cases hgd : d.GenderID with
        | none => rw [hgd] at hg; simp at hg
        | some x => simp [backfill, hgd]
      · simp [backfill, hg]
    simp only [Sync.merge_player_data, Player.merge_player_data]
    rw [hgen]

/-- C10 amended witness: with no detailed view both implementations
return the basic view unchanged. -/
theorem merge_implementations_agree_modulo_gender_witness :
    Sync.merge_player_data fullBasic none = Player.merge_player_data fullBasic none :=
  merge_implementations_agree_modulo_gender fullBasic none
    (fun _d hd => Option.noConfusion hd)

/-- C1: whenever the credentials are present and stages 1 to 4, the
player save and the finalisation all succeed, the per-player detail
outcomes are irrelevant to completion: every player whose detail fetch
failed is merged with None detail (keeping its basic view), all merged
players are persisted for this generation, and the generation is marked
completed. -/
theorem detail_failures_do_not_abort_sync (env : Sync.SyncEnv) (s0 : Sync.DbState)
    (tok sec : String) (hattrick_data : HattrickData) (resp : PlayersData)
    (player_list : List Player)
    (h1 : env.access_token = Except.ok (some tok))
    (h2 : env.access_secret = Except.ok (some sec))
    (h3 : env.create_record = Except.ok ())
    (h4 : env.team_details_resp = Except.ok hattrick_data)
    (h5 : env.save_team_result = Except.ok ())
    (h6 : env.world_details_resp = Except.ok ())
    (h7 : env.save_world_result = Except.ok ())
    (h8 : env.players_resp = Except.ok resp)
    (h9 : resp.Team.PlayerList = some player_list)
    (h10 : env.save_players_result = Except.ok ())
    (h11 : env.complete_update = Except.ok ())
    (hfresh : ∀ q ∈ s0.downloads, q.1 ≠ s0.next_download_id) :
    (Sync.do_sync env s0).1 = Except.ok () ∧
    (Sync.do_sync env s0).2.downloads
      = (s0.next_download_id, "completed") :: s0.downloads ∧
    (Sync.do_sync env s0).2.players = s0.players ++
      [(s0.next_download_id,
        ((hattrick_data.Teams.Teams.head?).bind (fun t => parse_u32 t.TeamID)).getD 0,
        player_list.map (fun b =>
          Sync.merge_player_data b (env.player_details_resp b.PlayerID).toOption))] := by
  refine ⟨?_, ?_, ?_⟩
  · simp only [Sync.do_sync, Sync.create_download_record, Sync.fetch_and_save_user_data,
      Sync.fetch_and_save_world_details, Sync.fetch_and_save_players,
      Sync.complete_download_record, h1, h2, h3, h4, h5, h6, h7, h8, h9, h10, h11]
  · simp only [Sync.do_sync, Sync.create_download_record, Sync.fetch_and_save_user_data,
      Sync.fetch_and_save_world_details, Sync.fetch_and_save_players,
      Sync.complete_download_record, h1, h2, h3, h4, h5, h6, h7, h8, h9, h10, h11]
    exact mark_completed_cons_self _ _ _ hfresh
  · simp only [Sync.do_sync, Sync.create_download_record, Sync.fetch_and_save_user_data,
      Sync.fetch_and_save_world_details, Sync.fetch_and_save_players,
      Sync.complete_download_record, h1, h2, h3, h4, h5, h6, h7, h8, h9, h10, h11,
      merge_outcome_toOption]

/-- C2: whenever the credentials are present, the generation record is
created, and stage 2 (team/user fetch or its team save), stage 3 (world
details fetch or its save) or stage 4 (roster fetch, including the
fatal missing-player-list parse error) fails, the sync aborts with an
error and the generation record keeps status in_progress; it is never
marked completed. -/
theorem early_stage_failure_leaves_in_progress (env : Sync.SyncEnv) (s0 : Sync.DbState)
    (tok sec : String)
    (h1 : env.access_token = Except.ok (some tok))
    (h2 : env.access_secret = Except.ok (some sec))
    (h3 : env.create_record = Except.ok ())
    (hfail :
      (∃ e, env.team_details_resp = Except.error e) ∨
      ((∃ hattrick_data, env.team_details_resp = Except.ok hattrick_data) ∧
        (∃ e, env.save_team_result = Except.error e)) ∨
      ((∃ hattrick_data, env.team_details_resp = Except.ok hattrick_data) ∧
        env.save_team_result = Except.ok () ∧
        (∃ e, env.world_details_resp = Except.error e)) ∨
      ((∃ hattrick_data, env.team_details_resp = Except.ok hattrick_data) ∧
        env.save_team_result = Except.ok () ∧
        env.world_details_resp = Except.ok () ∧
        (∃ e, env.save_world_result = Except.error e)) ∨
      ((∃ hattrick_data, env.team_details_resp = Except.ok hattrick_data) ∧
        env.save_team_result = Except.ok () ∧
        env.world_details_resp = Except.ok () ∧
        env.save_world_result = Except.ok () ∧
        (∃ e, env.players_resp = Except.error e)) ∨
      ((∃ hattrick_data, env.team_details_resp = Except.ok hattrick_data) ∧
        env.save_team_result = Except.ok () ∧
        env.world_details_resp = Except.ok () ∧
        env.save_world_result = Except.ok () ∧
        (∃ resp, env.players_resp = Except.ok resp ∧ resp.Team.PlayerList = none))) :
    (∃ e, (Sync.do_sync env s0).1 = Except.error e) ∧
    (Sync.do_sync env s0).2.downloads
      = (s0.next_download_id, "in_progress") :: s0.downloads := by
  rcases hfail with ⟨e, he⟩ | ⟨⟨hdv, hhd⟩, e, he⟩ | ⟨⟨hdv, hhd⟩, hst, e, he⟩
    | ⟨⟨hdv, hhd⟩, hst, hw, e, he⟩ | ⟨⟨hdv, hhd⟩, hst, hw, hsw, e, he⟩
    | ⟨⟨hdv, hhd⟩, hst, hw, hsw, resp, hresp, hpl⟩
  · refine ⟨⟨e, ?_⟩, ?_⟩ <;>
      simp only [Sync.do_sync, Sync.create_download_record, Sync.fetch_and_save_user_data,
        h1, h2, h3, he]
  · refine ⟨⟨e, ?_⟩, ?_⟩ <;>
      simp only [Sync.do_sync, Sync.create_download_record, Sync.fetch_and_save_user_data,
        h1, h2, h3, hhd, he]
  · refine ⟨⟨e, ?_⟩, ?_⟩ <;>
      simp only [Sync.do_sync, Sync.create_download_record, Sync.fetch_and_save_user_data,
        Sync.fetch_and_save_world_details, h1, h2, h3, hhd, hst, he]
  · refine ⟨⟨e, ?_⟩, ?_⟩ <;>
      simp only [Sync.do_sync, Sync.create_download_record, Sync.fetch_and_save_user_data,
        Sync.fetch_and_save_world_details, h1, h2, h3, hhd, hst, hw, he]
  · refine ⟨⟨e, ?_⟩, ?_⟩ <;>
      simp only [Sync.do_sync, Sync.create_download_record, Sync.fetch_and_save_user_data,
        Sync.fetch_and_save_world_details, Sync.fetch_and_save_players,
        h1, h2, h3, hhd, hst, hw, hsw, he]
  · refine ⟨⟨Error.Parse "No player list in response", ?_⟩, ?_⟩ <;>
      simp only [Sync.do_sync, Sync.create_download_record, Sync.fetch_and_save_user_data,
        Sync.fetch_and_save_world_details, Sync.fetch_and_save_players,
        h1, h2, h3, hhd, hst, hw, hsw, hresp, hpl]

/-- C8: perform_sync_with_stored_secrets maps an absent stored access
token or access secret (a get_secret failure, or a successful lookup
finding nothing) to the Ok false outcome, and it returns an error only
when both credentials were present. -/
theorem missing_credentials_return_false_not_error (env : Sync.SyncEnv) (s0 : Sync.DbState) :
    ((env.access_token = Except.ok none ∨ (∃ e, env.access_token = Except.error e) ∨
      env.access_secret = Except.ok none ∨ (∃ e, env.access_secret = Except.error e)) →
      (Sync.perform_sync_with_stored_secrets env s0).1 = Except.ok false) ∧
    (∀ e, (Sync.perform_sync_with_stored_secrets env s0).1 = Except.error e →
      (∃ v, env.access_token = Except.ok (some v)) ∧
      (∃ w, env.access_secret = Except.ok (some w))) := by
  have hc1 : strContains "Missing credentials (token)" "Missing credentials" = true := by
    decide
  have hc2 : strContains "Missing credentials (secret)" "Missing credentials" = true := by
    decide
  have habs : (env.access_token = Except.ok none ∨
      (∃ e, env.access_token = Except.error e) ∨
      env.access_secret = Except.ok none ∨
      (∃ e, env.access_secret = Except.error e)) →
      (Sync.perform_sync_with_stored_secrets env s0).1 = Except.ok false := by
    intro hcase
    rcases htok : env.access_token with et | otok
    · simp [Sync.perform_sync_with_stored_secrets, htok]
    · rcases hsec : env.access_secret with es | osec
      · simp [Sync.perform_sync_with_stored_secrets, htok, hsec]
      · cases otok with
        | none =>
          simp [Sync.perform_sync_with_stored_secrets, Sync.do_sync, htok, hsec, hc1]
        | some v =>
          cases osec with
          | none =>
            simp [Sync.perform_sync_with_stored_secrets, Sync.do_sync, htok, hsec, hc2]
          | some w =>
            rcases hcase with h | ⟨e, h⟩ | h | ⟨e, h⟩ <;>
              first
                | (rw [htok] at h; simp at h)
                | (rw [hsec] at h; simp at h)
  refine ⟨habs, ?_⟩
  intro e he
  rcases htok : env.access_token with et | otok
  · rw [habs (Or.inr (Or.inl ⟨et, htok⟩))] at he
    simp at he
  · cases otok with
    | none =>
      rw [habs (Or.inl htok)] at he
      simp at he
    | some v =>
      rcases hsec : env.access_secret with es | osec
      · rw [habs (Or.inr (Or.inr (Or.inr ⟨es, hsec⟩)))] at he
        simp at he
      · cases osec with
        | none =>
          rw [habs (Or.inr (Or.inr (Or.inl hsec)))] at he
          simp at he
        | some w => exact ⟨⟨v, rfl⟩, ⟨w, rfl⟩⟩

/-!  Pipeline fixtures. -/

/-- Fresh database state. -/
def emptyDb : Sync.DbState where
  next_download_id := 1
  downloads := []
  teams := []
  players := []

/-- Basic roster players and the detailed record for the first one. -/
def playerA : Player := { basePlayer with PlayerID := 1000 }

/-- Second roster player, whose detail fetch will fail. -/
def playerB : Player := { basePlayer with PlayerID := 1001 }

/-- Detailed view of playerA, carrying skills. -/
def detailA : Player := { basePlayer with
  PlayerID := 1000
  PlayerSkills := some ⟨7, 1, 5, 6, 5, 4, 3, 4⟩ }

/-- Team as returned by teamdetails. -/
def syncTeam : Team where
  TeamID := "54321"
  TeamName := "Test Team"
  PlayerList := none

/-- Team as returned by the players report, with the roster. -/
def rosterTeam : Team where
  TeamID := "54321"
  TeamName := "Test Team"
  PlayerList := some [playerA, playerB]

/-- Teamdetails fixture. -/
def hattrickFx : HattrickData where
  User := { UserID := 12345, Name := "Test User", Loginname := "testuser" }
  Teams := { Teams := [syncTeam] }

/-- Environment in which every stage succeeds except the detail fetch of
playerB, which exhausts its retries with a Network error. -/
def happyEnv : Sync.SyncEnv where
  access_token := Except.ok (some "tok")
  access_secret := Except.ok (some "sec")
  create_record := Except.ok ()
  team_details_resp := Except.ok hattrickFx
  save_team_result := Except.ok ()
  world_details_resp := Except.ok ()
  save_world_result := Except.ok ()
  players_resp := Except.ok { Team := rosterTeam }
  player_details_resp := fun id =>
    if id = 1000 then Except.ok detailA else Except.error (Error.Network "Connection failed")
  save_players_result := Except.ok ()
  complete_update := Except.ok ()

/-- Environment whose stage-2 fetch fails. -/
def stage2FailEnv : Sync.SyncEnv :=
  { happyEnv with team_details_resp := Except.error (Error.Network "boom") }

/-- Environment whose secret store holds no credentials. -/
def noCredsEnv : Sync.SyncEnv :=
  { happyEnv with access_token := Except.ok none, access_secret := Except.ok none }

/-- C1 witness: a two-player roster where the detail fetch succeeds for
playerA and fails for playerB still completes, persisting playerA with
skills merged and playerB as its basic view. -/
theorem detail_failures_do_not_abort_sync_witness :
    (Sync.do_sync happyEnv emptyDb).1 = Except.ok () ∧
    (Sync.do_sync happyEnv emptyDb).2.downloads = [(1, "completed")] ∧
    (Sync.do_sync happyEnv emptyDb).2.players
      = [(1, 54321, [Sync.merge_player_data playerA (some detailA),
          Sync.merge_player_data playerB none])] := by
  have h := detail_failures_do_not_abort_sync happyEnv emptyDb "tok" "sec"
    hattrickFx { Team := rosterTeam } [playerA, playerB]
    rfl rfl rfl rfl rfl rfl rfl rfl rfl rfl rfl (by simp [emptyDb])
  refine ⟨h.1, h.2.1, ?_⟩
  rw [h.2.2]
  decide

/-- C2 witness: a stage-2 network failure aborts the sync and leaves the
created generation in_progress. -/
theorem early_stage_failure_leaves_in_progress_witness :
    (Sync.do_sync stage2FailEnv emptyDb).1 = Except.error (Error.Network "boom") ∧
    (Sync.do_sync stage2FailEnv emptyDb).2.downloads = [(1, "in_progress")] := by
  have h := early_stage_failure_leaves_in_progress stage2FailEnv emptyDb "tok" "sec"
    rfl rfl rfl (Or.inl ⟨Error.Network "boom", rfl⟩)
  exact ⟨rfl, h.2⟩

/-- C8 witness: with both stored secrets absent the convenience entry
point reports Ok false instead of an error. -/
theorem missing_credentials_return_false_not_error_witness :
    (Sync.perform_sync_with_stored_secrets noCredsEnv emptyDb).1 = Except.ok false :=
  (missing_credentials_return_false_not_error noCredsEnv emptyDb).1 (Or.inl rfl)

/-!  OAuth exchange fixtures and claims. -/

/-- Settings holding consumer credentials but an empty request token. -/
def emptyTokenSettings : OauthSettings where
  request_token := ""
  oauth_secret_token := ""
  nonce := ""
  client_id := "consumer-key"
  client_secret := "consumer-secret"

/-- Settings with an empty consumer key. -/
def noConsumerSettings : OauthSettings where
  request_token := "rtok"
  oauth_secret_token := "rsec"
  nonce := ""
  client_id := ""
  client_secret := "consumer-secret"

/-- Exchange environment in which the endpoint answers with a parsable
token response. -/
def tokenExchangeEnv : OauthExchangeEnv where
  send_response := Except.ok "oauth_token=atok&oauth_token_secret=asec"
  receive_token := fun _ => Except.ok ("atok", some "asec")

/-- C9 counterexample: with non-empty consumer credentials but an empty
stored request token, exchange_verification_code does not fail with an
Auth error; it proceeds with the exchange and here produces an access
token. -/
theorem exchange_empty_request_token_cex :
    emptyTokenSettings.request_token = "" ∧
    exchange_verification_code "123456" emptyTokenSettings tokenExchangeEnv
      = Except.ok ("atok", "asec") := by
  constructor
  · rfl
  · rfl

/-- C9 amended: exchange_verification_code fails with an Auth error when
the consumer key or consumer secret in the settings is empty; the stored
request token is read but never validated. -/
theorem exchange_rejects_empty_consumer_credentials (verification_code : String)
    (settings : OauthSettings) (env : OauthExchangeEnv)
    (h : settings.client_id.isEmpty = true ∨ settings.client_secret.isEmpty = true) :
    exchange_verification_code verification_code settings env
      = Except.error (Error.Auth "Consumer key or secret missing in settings") := by
  unfold exchange_verification_code
  rcases h with h | h <;> simp [h]

/-- C9 amended witness: an empty consumer key is rejected with the Auth
error even though the endpoint would have answered. -/
theorem exchange_rejects_empty_consumer_credentials_witness :
    exchange_verification_code "123456" noConsumerSettings tokenExchangeEnv
      = Except.error (Error.Auth "Consumer key or secret missing in settings") :=
  exchange_rejects_empty_consumer_credentials "123456" noConsumerSettings
    tokenExchangeEnv (Or.inl rfl)

end Nutmeg
